import Mathlib

/-!
Shallow embedding of the single-owner coordination and cross-process IPC
bridge of the whatsapp-mcp-server repository.

Part 1 embeds the startup role decision of `WhatsAppMCPServer.constructor`
(src/index.js, reproduced in src/README.md lines 292-374): the constructor
reads the lock (lease) file and the readiness state file and decides whether
this process runs as the primary instance or as a proxy.

File contents on disk are modelled by `FileContent`: a file is absent,
present but unparseable (`JSON.parse` throws), or present with a parsed
record.  Timestamps are milliseconds since epoch, as `Int` (`Date.now()` and
`new Date(s).getTime()`).
-/

namespace WhatsappMcp

/-- A file on disk as seen by a reader: absent, present but failing to
parse (reading it throws), or present with valid content. -/
inductive FileContent (α : Type) where
  | absent
  | corrupt
  | valid (a : α)
deriving DecidableEq

/-- The lock (lease) file content: `{instanceId, timestamp, pid}` as written
by the primary (README.md lines 323-327). `timestamp` is in ms since epoch. -/
structure LeaseRecord where
  instanceId : String
  timestamp : Int
  pid : Nat
deriving DecidableEq

/-- The readiness state file content: `{isReady, instanceId, timestamp}` as
written by `saveState` (README.md lines 275-283).  Only the fields the
constructor reads are modelled. -/
structure StateRecord where
  isReady : Bool
  instanceId : String
deriving DecidableEq

/-- The role a freshly constructed instance ends up in: primary (it will set
up its own WhatsApp client), or proxy retaining the discovered owner's
instance id (`this.primaryInstanceId = lockData.instanceId`). -/
inductive Role where
  | primary
  | proxy (ownerId : String)
deriving DecidableEq

/-- Outcome of the constructor's lock-file handling: the role taken and
whether the instance wrote the lock file with its own identity
(`fs.writeFileSync(lockFile, ...)` at README.md line 323). -/
structure CtorResult where
  role : Role
  leaseWritten : Bool
deriving DecidableEq

/-- Embedding of the role decision in `WhatsAppMCPServer.constructor`
(README.md lines 301-340).  Control flow of the source:
the whole block is wrapped in one `try`; if the lock file exists it is
parsed (a parse failure throws to the `catch`, skipping everything,
including the lock write); if the lock is younger than 60000 ms the state
file is consulted, and only when the state file exists and parses does the
instance set `isProxyInstance = true`; in every path where
`isProxyInstance` was not set and no exception occurred, the instance
writes the lock file with its own identity.  Note that the recorded `pid`
is never probed. -/
def acquireRole (now : Int) (lock : FileContent LeaseRecord)
    (state : FileContent StateRecord) : CtorResult :=
  match lock with
  | .absent => ⟨.primary, true⟩
  | .corrupt => ⟨.primary, false⟩
  | .valid ld =>
    if now - ld.timestamp < 60000 then
      match state with
      | .absent => ⟨.primary, true⟩
      | .corrupt => ⟨.primary, false⟩
      | .valid _ => ⟨.proxy ld.instanceId, false⟩
    else ⟨.primary, true⟩

/-!
Part 2 embeds the IPC bridge.  The repository carries three copies of the
bridge:
* variant 1: `src/src/ipc-bridge.js` (6 operations, no reconciliation);
* variant 2: `src/unnamed/part_005` lines 240-627 (8 operations, no
  reconciliation);
* variant 3: `src/unnamed/part_005` lines 627-1162 (8 operations,
  per-file read error handling, startup reconciliation via
  `processExistingRequests`).

The mailbox is the `/tmp/whatsapp-mcp-ipc/{requests,responses}` directory
pair.  The requests directory is modelled as a list of files in
directory-listing order (a file is either a parseable `RequestRecord` or an
unparseable file); the responses directory is modelled as a keyed store
(id to content), since it is only ever accessed by exact file name
`<id>.json`.  A response file carries `result` XOR `error`, modelled as
`Except String Nat` with the result payload abstracted to a token.
Filesystem writes are assumed to succeed.
-/

/-- A request file content: `{id, operation, params, timestamp}`.  The
`params` payload is opaque to the bridge and abstracted to a token. -/
structure RequestRecord where
  id : String
  operation : String
  params : Nat
deriving DecidableEq

/-- A file in the requests directory: parseable or not (`JSON.parse` of its
content throws).  For a valid file written by `sendRequest` the file name is
`<id>.json`. -/
inductive ReqFile where
  | corrupt (name : String)
  | valid (r : RequestRecord)
deriving DecidableEq

/-- The name (without `.json`) under which a request file sits in the
directory. -/
def ReqFile.fileId : ReqFile → String
  | .corrupt n => n
  | .valid r => r.id

/-- Whether a request file parses. -/
def ReqFile.isValid : ReqFile → Bool
  | .corrupt _ => false
  | .valid _ => true

/-- A response file content: `{id, result}` or `{id, error}`. -/
abbrev RespContent := Except String Nat

/-- The responses directory, keyed by file name (the request id). -/
abbrev RespStore := String → Option RespContent

/-- `fs.writeFileSync(responseFile, ...)`: creates or overwrites the
response file for `id`. -/
def writeResp (rs : RespStore) (id : String) (v : RespContent) : RespStore :=
  fun x => if x = id then some v else rs x

/-- `fs.unlinkSync(responseFile)` (guarded by existence in variant 3). -/
def deleteResp (rs : RespStore) (id : String) : RespStore :=
  fun x => if x = id then none else rs x

/-- The shared mailbox: requests directory (listing order) and responses
directory. -/
structure Mailbox where
  requests : List ReqFile
  responses : RespStore

/-- The session handle (`whatsappClient`): each dispatch case of the
processor's `switch` calls into it and either produces a result or raises
with a message; the bodies of the cases are abstracted to this call.
Several case bodies differ between variant 1 and variants 2/3 —
`searchMessages` (fetch 100 + substring filter versus fetch 200 +
date/media filters + sort; embedded below as `searchV1`/`searchV23`) and
`getMediaFromContact` (fetch limit 100 versus 300, default slice 10 versus
50, different extension inference) — so feeding the same abstract client
to two variants does *not* witness agreement of their case bodies;
cross-variant `dispatch` statements below are therefore only about the
operation `switch` itself (which operations are recognised), never about
body equality on a shared operation. -/
def Client := String → Nat → Except String Nat

/-- The operations the variant-1 processor's `switch` recognises
(src/src/ipc-bridge.js lines 83-237). -/
def opsV1 : List String :=
  ["getChats", "getContacts", "getMessages", "searchMessages",
   "sendMessage", "getMediaFromContact"]

/-- The operations the variant-2/3 processors recognise (part_005 lines
322-604 and 858-1140). -/
def opsV23 : List String :=
  ["getChats", "getContacts", "getMessages", "searchMessages",
   "sendMessage", "getMediaFromContact", "getContactActivity",
   "getTodaysMedia"]

/-- One dispatch of a request inside the processor's inner `try`:
the `switch` on `request.operation` either runs the corresponding
session-handle case or hits `default`, which throws
`Unknown operation: <op>`; an exception becomes `Except.error` with the
exception's message (written as the `error` response by the `catch`). -/
def dispatch (ops : List String) (c : Client) (r : RequestRecord) :
    Except String Nat :=
  if r.operation ∈ ops then c r.operation r.params
  else .error ("Unknown operation: " ++ r.operation)

/-- The body of one poll tick over the listed request files, accumulating
the responses directory and the trace of dispatched request ids.
`abortOnCorrupt = true` models variants 1 and 2, where `JSON.parse` of a
request file sits outside the inner `try`, so a parse failure escapes to
the tick's outer `catch` and ends the loop for this tick;
`abortOnCorrupt = false` models variant 3's `processRequests`, which
catches the read error per file and `continue`s.  In every variant the
request file is not deleted. -/
def tickGo (ops : List String) (abortOnCorrupt : Bool) (c : Client) :
    List ReqFile → RespStore → List String → RespStore × List String
  | [], rs, tr => (rs, tr)
  | .corrupt _ :: rest, rs, tr =>
      if abortOnCorrupt then (rs, tr) else tickGo ops abortOnCorrupt c rest rs tr
  | .valid r :: rest, rs, tr =>
      tickGo ops abortOnCorrupt c rest
        (writeResp rs r.id (dispatch ops c r)) (tr ++ [r.id])

/-- One 500 ms tick of the variant-1 processor (src/src/ipc-bridge.js lines
71-259): list the request files, dispatch each, write a response per
request; requests are never unlinked.  Returns the new mailbox and the
trace of dispatched request ids. -/
def tickV1 (c : Client) (m : Mailbox) : Mailbox × List String :=
  let p := tickGo opsV1 true c m.requests m.responses []
  (⟨m.requests, p.1⟩, p.2)

/-- One tick of the variant-2 processor (part_005 lines 310-626). -/
def tickV2 (c : Client) (m : Mailbox) : Mailbox × List String :=
  let p := tickGo opsV23 true c m.requests m.responses []
  (⟨m.requests, p.1⟩, p.2)

/-- One tick of the variant-3 processor, `processRequests` (part_005 lines
835-1162). -/
def tickV3 (c : Client) (m : Mailbox) : Mailbox × List String :=
  let p := tickGo opsV23 false c m.requests m.responses []
  (⟨m.requests, p.1⟩, p.2)

/-- The error message reconciliation writes for each leftover request
(part_005 line 816). -/
def restartErrorMsg : String := "Server was restarted while processing request"

/-- The body of `processExistingRequests` (part_005 lines 800-832) over the
listed request files: each parseable request gets an error response and its
file is unlinked; a file whose read/parse throws is caught per file and
left in place. -/
def reconcileGo : List ReqFile → RespStore → List ReqFile × RespStore
  | [], rs => ([], rs)
  | .corrupt n :: rest, rs =>
      let p := reconcileGo rest rs
      (.corrupt n :: p.1, p.2)
  | .valid r :: rest, rs =>
      reconcileGo rest (writeResp rs r.id (.error restartErrorMsg))

/-- `processExistingRequests` as a mailbox transformer.  It lists only the
requests directory; the responses directory is never scanned. -/
def reconcileV3 (m : Mailbox) : Mailbox :=
  let p := reconcileGo m.requests m.responses
  ⟨p.1, p.2⟩

/-- Mailbox state at which the variant-1 (and variant-2) processor begins
its first tick: `startRequestProcessor` goes straight to `setInterval`. -/
def startStateV1 (m : Mailbox) : Mailbox := m

/-- Mailbox state at which the variant-3 processor begins its first tick:
`startRequestProcessor` (part_005 lines 778-797) runs
`processExistingRequests()` before installing the interval. -/
def startStateV3 (m : Mailbox) : Mailbox := reconcileV3 m

/-!
Part 3: the proxy side, `sendRequest` (src/src/ipc-bridge.js lines 22-65;
textually identical in part_005 lines 261-304; variant 3, part_005 lines
691-775, adds guarded cleanup and logging around the same protocol).
The poll loop is idealised: the loop body is instantaneous and each
iteration ends in a 100 ms sleep, so the existence check number `k` happens
at elapsed time `100 * k` ms, and the loop condition
`Date.now() - startTime < timeout` admits exactly the checks with
`k < timeout / 100`.  The contents of the response file visible at check
`k` are supplied by an environment function (the primary writes it
concurrently).
-/

/-- `const timeout = operation === 'getMediaFromContact' ? 60000 : 30000`
(src/src/ipc-bridge.js line 38). -/
def timeoutFor (operation : String) : Nat :=
  if operation = "getMediaFromContact" then 60000 else 30000

/-- Number of existence checks the poll loop performs before the deadline:
checks happen at elapsed `0, 100, ..` ms while elapsed `< timeout`. -/
def pollsFor (timeoutMs : Nat) : Nat := timeoutMs / 100

/-- Scan checks `k, k+1, ..., k+n-1` and return the first response-file
content observed, if any. -/
def pollFind (env : Nat → Option RespContent) (k : Nat) : Nat → Option RespContent
  | 0 => none
  | n + 1 =>
    match env k with
    | some v => some v
    | none => pollFind env (k + 1) n

/-- What `sendRequest` does after the wait: return the result, throw the
response's `error` message, or throw the timeout error. -/
inductive SendOutcome where
  | ok (v : Nat)
  | remoteError (msg : String)
  | timeout (msg : String)
deriving DecidableEq

/-- The timeout error message (src/src/ipc-bridge.js line 64). -/
def timeoutErrorMsg : String := "Request timeout - primary instance may not be running"

/-- The wait phase of `sendRequest` (src/src/ipc-bridge.js lines 40-64):
poll for the response file until the operation timeout; when it appears,
read it, clean up, and either return `result` or throw the `error`; when
the deadline passes, throw the timeout error. -/
def sendRequestWait (env : Nat → Option RespContent) (operation : String) :
    SendOutcome :=
  match pollFind env 0 (pollsFor (timeoutFor operation)) with
  | some (.ok v) => .ok v
  | some (.error e) => .remoteError e
  | none => .timeout timeoutErrorMsg

/-- Find the request file named `<id>.json` in the requests directory. -/
def lookupReq (m : Mailbox) (id : String) : Option ReqFile :=
  m.requests.find? (fun f => f.fileId == id)

/-- `fs.unlinkSync(requestFile)` for the file named `<id>.json`. -/
def removeReq (m : Mailbox) (id : String) : Mailbox :=
  ⟨m.requests.filter (fun f => f.fileId != id), m.responses⟩

/-- The timeout path's cleanup (src/src/ipc-bridge.js lines 60-62):
`if (fs.existsSync(requestFile)) fs.unlinkSync(requestFile)` — deleting the
request file if it is still there, a no-op otherwise (never throws). -/
def timeoutCleanup (m : Mailbox) (id : String) : Mailbox :=
  removeReq m id

/-- The collection branch of `sendRequest` (src/src/ipc-bridge.js lines
41-53) as a mailbox transaction: when the response file for `id` exists,
read it, unlink the request and response files, and finish with the
response's result or error.  `none` when no response file exists (the loop
keeps polling).  The proxy's own request file is assumed still present (the
primary never deletes it and only this proxy wrote it), so the unguarded
`fs.unlinkSync(requestFile)` of variants 1 and 2 does not throw. -/
def proxyCollect (m : Mailbox) (id : String) : Option (SendOutcome × Mailbox) :=
  match m.responses id with
  | none => none
  | some content =>
    let cleaned : Mailbox := ⟨(removeReq m id).requests, deleteResp m.responses id⟩
    match content with
    | .ok v => some (.ok v, cleaned)
    | .error e => some (.remoteError e, cleaned)

/-- The write phase of `sendRequest` (src/src/ipc-bridge.js lines 25-35):
a fresh request file appears in the requests directory. -/
def writeRequest (m : Mailbox) (r : RequestRecord) : Mailbox :=
  ⟨m.requests ++ [ReqFile.valid r], m.responses⟩

/-!
Part 4: the `searchMessages` dispatch bodies, the one case whose
post-processing differs between variant 1 (src/src/ipc-bridge.js lines
124-152) and variants 2/3 (part_005 lines 363-432 and 899-968).  Messages
and chats are modelled with the fields these bodies read; message
timestamps are seconds (multiplied by 1000 where the source builds a
`Date`), date-filter bounds are given already parsed to milliseconds.
JavaScript-falsy parameter values (absent field, empty string, zero) are
modelled uniformly as `none`.
-/

/-- A message as the search bodies read it. -/
structure Message where
  mid : String
  body : String
  sender : String
  recipient : String
  timestamp : Int
  hasMedia : Bool
  mtype : String
deriving DecidableEq

/-- A chat: id, `chat.name` (possibly null/undefined), and its messages,
most recent first (`fetchMessages {limit: n}` returns the first `n`). -/
structure Chat where
  cid : String
  cname : Option String
  msgs : List Message
deriving DecidableEq

/-- The search parameters the two bodies read. -/
structure SearchParams where
  query : Option String
  contactId : Option String
  limit : Option Nat
  dateFrom : Option Int
  dateTo : Option Int
  mediaType : Option String
deriving DecidableEq

/-- `x || d` on a numeric field (`request.params.limit || 10`): zero is
falsy in JavaScript. -/
def jsOr (o : Option Nat) (d : Nat) : Nat :=
  match o with
  | some 0 => d
  | some n => n
  | none => d

/-- `hay.includes(needle)` on strings. -/
def strIncludesAux (needle : List Char) : List Char → Bool
  | [] => needle.isEmpty
  | c :: rest => needle.isPrefixOf (c :: rest) || strIncludesAux needle rest

/-- JavaScript `String.prototype.includes`. -/
def strIncludes (hay needle : String) : Bool :=
  strIncludesAux needle.toList hay.toList

/-- `request.params.contactId && chat.id._serialized !== contactId`. -/
def contactMismatch (p : SearchParams) (chat : Chat) : Bool :=
  match p.contactId with
  | some cid => chat.cid != cid
  | none => false

/-- A hit as mapped by variant 1 (src/src/ipc-bridge.js lines 143-151):
`chatId` is `msg.from`, and `chatName` is `msg.chat?.name || msg.from`,
which is `msg.from` since the fetched message object has no `chat`
property. -/
structure SearchHitV1 where
  mid : String
  body : String
  sender : String
  recipient : String
  timestamp : Int
  chatId : String
  chatName : String
deriving DecidableEq

/-- Variant 1's chat loop: skip chats not matching `contactId`, fetch 100
messages, keep those matching the (lowercased) query — everything when the
query is falsy — push at most `limit` of them, and break once the
accumulator reaches `limit`.  The accumulated list is not re-trimmed, so
the total may exceed `limit` across chats. -/
def searchV1Loop (p : SearchParams) (q : Option String) :
    List Chat → List Message → List Message
  | [], acc => acc
  | chat :: rest, acc =>
    if contactMismatch p chat then searchV1Loop p q rest acc
    else
      let found := (chat.msgs.take 100).filter (fun msg =>
        match q with
        | none => true
        | some qs => strIncludes msg.body.toLower qs)
      let acc2 := acc ++ found.take (jsOr p.limit 10)
      if jsOr p.limit 10 ≤ acc2.length then acc2
      else searchV1Loop p q rest acc2

/-- The variant-1 `searchMessages` body. -/
def searchV1 (chats : List Chat) (p : SearchParams) : List SearchHitV1 :=
  (searchV1Loop p (p.query.map String.toLower) chats []).map (fun msg =>
    ⟨msg.mid, msg.body, msg.sender, msg.recipient, msg.timestamp,
     msg.sender, msg.sender⟩)

/-- A hit as pushed by variants 2/3 (part_005 lines 411-421): `chatId` is
the chat's id and `chatName` is `chat.name || msg.from`. -/
structure SearchHitV23 where
  mid : String
  body : String
  sender : String
  recipient : String
  timestamp : Int
  chatId : String
  chatName : String
  mtype : String
  hasMedia : Bool
deriving DecidableEq

/-- The per-message filter chain of variants 2/3 (part_005 lines 376-409):
date window, media type (`any` means any media), then the free-text query
against the body — or, for media searches, against the caption of media
messages. -/
def passesV23 (p : SearchParams) (q : Option String) (m : Message) : Bool :=
  (match p.dateFrom with
   | some d => !(decide (m.timestamp * 1000 < d))
   | none => true) &&
  (match p.dateTo with
   | some d => !(decide (d < m.timestamp * 1000))
   | none => true) &&
  (match p.mediaType with
   | some mt => if mt == "any" then m.hasMedia else m.mtype == mt
   | none => true) &&
  (match q, p.mediaType with
   | some qs, none => strIncludes m.body.toLower qs
   | some qs, some _ => if m.hasMedia then strIncludes m.body.toLower qs else true
   | none, _ => true)

/-- Build the hit variants 2/3 push. -/
def mkHitV23 (chat : Chat) (m : Message) : SearchHitV23 :=
  ⟨m.mid, m.body, m.sender, m.recipient, m.timestamp, chat.cid,
   (match chat.cname with | some n => n | none => m.sender),
   m.mtype, m.hasMedia⟩

/-- Variants 2/3, inner message loop with its `break` at `limit`. -/
def searchV23MsgLoop (p : SearchParams) (q : Option String) (chat : Chat) :
    List Message → List SearchHitV23 → List SearchHitV23
  | [], acc => acc
  | m :: rest, acc =>
    if passesV23 p q m then
      let acc2 := acc ++ [mkHitV23 chat m]
      if jsOr p.limit 10 ≤ acc2.length then acc2
      else searchV23MsgLoop p q chat rest acc2
    else searchV23MsgLoop p q chat rest acc

/-- Variants 2/3, outer chat loop (fetch limit 200) with its `break`. -/
def searchV23ChatLoop (p : SearchParams) (q : Option String) :
    List Chat → List SearchHitV23 → List SearchHitV23
  | [], acc => acc
  | chat :: rest, acc =>
    if contactMismatch p chat then searchV23ChatLoop p q rest acc
    else
      let acc2 := searchV23MsgLoop p q chat (chat.msgs.take 200) acc
      if jsOr p.limit 10 ≤ acc2.length then acc2
      else searchV23ChatLoop p q rest acc2

/-- Stable insertion for descending timestamps, modelling the stable
JavaScript `sort((a, b) => b.timestamp - a.timestamp)`. -/
def insertDescByTs (x : SearchHitV23) : List SearchHitV23 → List SearchHitV23
  | [] => [x]
  | y :: ys =>
    if y.timestamp ≤ x.timestamp then x :: y :: ys
    else y :: insertDescByTs x ys

/-- Stable sort by timestamp, newest first (part_005 line 430). -/
def sortDescByTs : List SearchHitV23 → List SearchHitV23
  | [] => []
  | x :: xs => insertDescByTs x (sortDescByTs xs)

/-- The variants-2/3 `searchMessages` body: filter-and-collect with breaks,
then sort newest-first and slice to `limit`. -/
def searchV23 (chats : List Chat) (p : SearchParams) : List SearchHitV23 :=
  (sortDescByTs (searchV23ChatLoop p (p.query.map String.toLower) chats [])).take
    (jsOr p.limit 10)

/-- The ids of the parseable request files in a directory listing. -/
def validIds (reqs : List ReqFile) : List String :=
  reqs.filterMap (fun f => match f with
    | .valid r => some r.id
    | .corrupt _ => none)

/-!
Theorems.  Helper lemmas about the embedded operations come first, then one
theorem per claim (with counterexamples and witnesses where applicable).
-/

theorem writeResp_same (rs : RespStore) (id : String) (v : RespContent) :
    writeResp rs id v id = some v := by
  simp [writeResp]

theorem writeResp_other (rs : RespStore) (id x : String) (v : RespContent)
    (h : x ≠ id) : writeResp rs id v x = rs x := by
  simp [writeResp, h]

theorem tickGo_untouched (ops : List String) (b : Bool) (c : Client)
    (reqs : List ReqFile) (rs : RespStore) (tr : List String) (x : String)
    (h : ∀ f ∈ reqs, ReqFile.fileId f ≠ x) :
    (tickGo ops b c reqs rs tr).1 x = rs x := by
  induction reqs generalizing rs tr with
  | nil => rfl
  | cons f rest ih =>
    cases f with
    | corrupt n =>
      cases b with
      | true => simp [tickGo]
      | false =>
        simp only [tickGo]
        simp only [Bool.false_eq_true, if_false]
        exact ih rs tr (fun g hg => h g (List.mem_cons_of_mem _ hg))
    | valid r =>
      simp only [tickGo]
      rw [ih _ _ (fun g hg => h g (List.mem_cons_of_mem _ hg))]
      exact writeResp_other _ _ _ _
        (fun hx => h (ReqFile.valid r) (List.mem_cons_self _ _) hx.symm)

theorem tickGo_resp_of_mem (ops : List String) (b : Bool) (c : Client)
    (reqs : List ReqFile) (rs : RespStore) (tr : List String)
    (r : RequestRecord)
    (hval : ∀ f ∈ reqs, ReqFile.isValid f = true)
    (hnd : (reqs.map ReqFile.fileId).Nodup)
    (hmem : ReqFile.valid r ∈ reqs) :
    (tickGo ops b c reqs rs tr).1 r.id = some (dispatch ops c r) := by
  induction reqs generalizing rs tr with
  | nil => cases hmem
  | cons f rest ih =>
    cases f with
    | corrupt n =>
      exact absurd (hval (ReqFile.corrupt n) (List.mem_cons_self _ _))
        (by simp [ReqFile.isValid])
    | valid r0 =>
      rcases List.mem_cons.mp hmem with heq | hrest
      · cases heq
        have hno : ∀ g ∈ rest, ReqFile.fileId g ≠ r.id := by
          intro g hg hx
          have := (List.nodup_cons.mp hnd).1
          exact this (by
            simpa [hx] using List.mem_map_of_mem ReqFile.fileId hg)
        simp only [tickGo]
        rw [tickGo_untouched ops b c rest _ _ _ hno]
        exact writeResp_same _ _ _
      · simp only [tickGo]
        exact ih _ _ (fun g hg => hval g (List.mem_cons_of_mem _ hg))
          (List.nodup_cons.mp hnd).2 hrest

theorem tickGo_trace_mono (ops : List String) (b : Bool) (c : Client)
    (reqs : List ReqFile) (rs : RespStore) (tr : List String) (x : String)
    (h : x ∈ tr) : x ∈ (tickGo ops b c reqs rs tr).2 := by
  induction reqs generalizing rs tr with
  | nil => exact h
  | cons f rest ih =>
    cases f with
    | corrupt n =>
      cases b with
      | true => simpa [tickGo] using h
      | false =>
        simp only [tickGo]
        simp only [Bool.false_eq_true, if_false]
        exact ih _ _ h
    | valid r =>
      simp only [tickGo]
      exact ih _ _ (List.mem_append_left _ h)

theorem tickGo_trace_of_mem (ops : List String) (b : Bool) (c : Client)
    (reqs : List ReqFile) (rs : RespStore) (tr : List String)
    (r : RequestRecord)
    (hval : ∀ f ∈ reqs, ReqFile.isValid f = true)
    (hmem : ReqFile.valid r ∈ reqs) :
    r.id ∈ (tickGo ops b c reqs rs tr).2 := by
  induction reqs generalizing rs tr with
  | nil => cases hmem
  | cons f rest ih =>
    cases f with
    | corrupt n =>
      exact absurd (hval (ReqFile.corrupt n) (List.mem_cons_self _ _))
        (by simp [ReqFile.isValid])
    | valid r0 =>
      rcases List.mem_cons.mp hmem with heq | hrest
      · cases heq
        simp only [tickGo]
        exact tickGo_trace_mono _ _ _ _ _ _ _
          (List.mem_append_right _ (List.mem_singleton_self _))
      · simp only [tickGo]
        exact ih _ _ (fun g hg => hval g (List.mem_cons_of_mem _ hg)) hrest

theorem mem_validIds_cons_valid (r : RequestRecord) (rest : List ReqFile)
    (x : String) :
    x ∈ validIds (ReqFile.valid r :: rest) ↔ x = r.id ∨ x ∈ validIds rest := by
  simp [validIds, List.filterMap_cons, eq_comm]

theorem mem_validIds_cons_corrupt (n : String) (rest : List ReqFile)
    (x : String) :
    x ∈ validIds (ReqFile.corrupt n :: rest) ↔ x ∈ validIds rest := by
  simp [validIds, List.filterMap_cons]

theorem reconcileGo_resp (reqs : List ReqFile) (rs : RespStore) (x : String) :
    (reconcileGo reqs rs).2 x =
      if x ∈ validIds reqs then some (Except.error restartErrorMsg) else rs x := by
  induction reqs generalizing rs with
  | nil => simp [reconcileGo, validIds]
  | cons f rest ih =>
    cases f with
    | corrupt n =>
      simp only [reconcileGo]
      rw [ih]
      simp [mem_validIds_cons_corrupt]
    | valid r =>
      simp only [reconcileGo]
      rw [ih]
      by_cases hxr : x = r.id
      · subst hxr
        simp [mem_validIds_cons_valid, writeResp]
      · by_cases hx : x ∈ validIds rest
        · simp [mem_validIds_cons_valid, hx, hxr]
        · simp [mem_validIds_cons_valid, hx, hxr, writeResp]

theorem reconcileGo_requests (reqs : List ReqFile) (rs : RespStore) :
    (reconcileGo reqs rs).1 = reqs.filter (fun f => !ReqFile.isValid f) := by
  induction reqs generalizing rs with
  | nil => rfl
  | cons f rest ih =>
    cases f with
    | corrupt n => simp [reconcileGo, ih, ReqFile.isValid, List.filter]
    | valid r => simp [reconcileGo, ih, ReqFile.isValid, List.filter]

theorem pollFind_none (env : Nat → Option RespContent) (k n : Nat)
    (h : ∀ j, j < k + n → env j = none) : pollFind env k n = none := by
  induction n generalizing k with
  | zero => rfl
  | succ n ih =>
    have hk : env k = none := h k (by omega)
    simp only [pollFind, hk]
    exact ih (k + 1) (fun j hj => h j (by omega))

theorem pollsFor_timeoutFor_pos (operation : String) :
    0 < pollsFor (timeoutFor operation) := by
  unfold pollsFor timeoutFor
  split <;> norm_num

theorem pollFind_const (v : RespContent) (k n : Nat) (h : 0 < n) :
    pollFind (fun _ => some v) k n = some v := by
  cases n with
  | zero => omega
  | succ n => rfl

theorem lookupReq_removeReq (m : Mailbox) (id : String) :
    lookupReq (removeReq m id) id = none := by
  simp only [lookupReq, removeReq, List.find?_eq_none]
  intro f hf
  have := (List.mem_filter.mp hf).2
  simpa using this

theorem removeReq_idem (m : Mailbox) (id : String) :
    removeReq (removeReq m id) id = removeReq m id := by
  simp [removeReq, List.filter_filter]

/-- C1 (counterexample): the claim says a new instance becomes Primary
exactly when the lease file is absent, or its timestamp is older than the
60-second window, or the recorded processId is not running.  Concrete
refuting state: a 5-second-old lease whose recorded process 42 is *not*
running (liveness probe `fun _ => false`), with a readable state file.  The
claim's right-hand side holds (dead process), but the constructor still
becomes a Proxy: the code never probes the pid. -/
theorem claim_c1_counterexample :
    ¬ ((acquireRole 100000 (FileContent.valid ⟨"owner", 95000, 42⟩)
          (FileContent.valid ⟨true, "owner"⟩)).role = Role.primary ↔
        (FileContent.valid (⟨"owner", 95000, 42⟩ : LeaseRecord) = FileContent.absent ∨
         (60000 : Int) ≤ 100000 - 95000 ∨
         (fun _ : Nat => false) 42 = false)) := by
  decide

/-- C1 (amended): a new instance becomes Primary exactly when the lease
file is absent or unparseable, or its recorded timestamp age reaches 60s,
or the readiness state file is absent or unparseable; no process-liveness
probe is performed (the outcome is independent of the recorded pid).  In
every other case it becomes a Proxy.  In particular a stale lease alone
already yields Primary, dead or live process. -/
theorem claim_c1_amended (now : Int) (lock : FileContent LeaseRecord)
    (st : FileContent StateRecord) :
    ((acquireRole now lock st).role = Role.primary ↔
      ¬ ∃ ld s, lock = FileContent.valid ld ∧ st = FileContent.valid s ∧
        now - ld.timestamp < 60000) ∧
    (∀ id ts p1 p2, acquireRole now (FileContent.valid ⟨id, ts, p1⟩) st =
      acquireRole now (FileContent.valid ⟨id, ts, p2⟩) st) := by
  constructor
  · cases lock with
    | absent => simp [acquireRole]
    | corrupt => simp [acquireRole]
    | valid ld =>
      cases st with
      | absent =>
        simp only [acquireRole]
        split <;> simp
      | corrupt =>
        simp only [acquireRole]
        split <;> simp
      | valid s =>
        by_cases hf : now - ld.timestamp < 60000
        · simp [acquireRole, hf]
        · simp [acquireRole, hf]
  · intro id ts p1 p2
    cases st <;> simp [acquireRole]

/-- C7 (counterexample): the claim says that when the lease is fresh but
reading the state file throws, the instance overwrites the live lease with
its own identity and becomes a second Primary.  Concrete refuting state: a
5-second-old lease and an unparseable state file.  The instance does take
the primary path (no proxy flag), but the exception jumps past the lock
write, so the live lease is *not* overwritten. -/
theorem claim_c7_counterexample :
    (acquireRole 100000 (FileContent.valid ⟨"owner", 95000, 42⟩)
        FileContent.corrupt).role = Role.primary ∧
    (acquireRole 100000 (FileContent.valid ⟨"owner", 95000, 42⟩)
        FileContent.corrupt).leaseWritten = false := by
  decide

/-- C7 (amended): with a fresh (younger than 60s) valid lease, the instance
becomes a Proxy exactly when the state file also exists and parses; with
the state file absent it becomes a second Primary and overwrites the live
lease; when reading the state file or the lock file throws, it becomes a
Primary *without* writing the lease (the exception skips the lock write). -/
theorem claim_c7_amended (now : Int) (ld : LeaseRecord)
    (hfresh : now - ld.timestamp < 60000) :
    (∀ s, acquireRole now (FileContent.valid ld) (FileContent.valid s)
        = ⟨Role.proxy ld.instanceId, false⟩) ∧
    acquireRole now (FileContent.valid ld) FileContent.absent
        = ⟨Role.primary, true⟩ ∧
    acquireRole now (FileContent.valid ld) FileContent.corrupt
        = ⟨Role.primary, false⟩ ∧
    acquireRole now FileContent.corrupt (FileContent.valid ⟨true, ld.instanceId⟩)
        = ⟨Role.primary, false⟩ := by
  refine ⟨fun s => ?_, ?_, ?_, rfl⟩ <;> simp [acquireRole, hfresh]

/-- Witness for the C7 amended theorem at a concrete fresh lease. -/
theorem claim_c7_amended_witness :
    ((100000 : Int) - 95000 < 60000) ∧
    acquireRole 100000 (FileContent.valid ⟨"owner", 95000, 42⟩)
        FileContent.corrupt = ⟨Role.primary, false⟩ :=
  ⟨by norm_num,
   (claim_c7_amended 100000 ⟨"owner", 95000, 42⟩ (by norm_num)).2.2.1⟩

/-- C2 (counterexample): the claim says the primary deletes the request
file after writing the response, and that the proxy deletes a request file
only on timeout.  Concrete refuting run: one valid `sendMessage` request
`r1`; the variant-1 tick handles it (the response is written) yet the
request file is still listed afterwards; conversely, the proxy's *success*
path (collecting an `ok` response) deletes the request file without any
timeout. -/
theorem claim_c2_counterexample :
    (tickV1 (fun _ _ => Except.ok 0)
        ⟨[ReqFile.valid ⟨"r1", "sendMessage", 0⟩], fun _ => none⟩).1.responses "r1"
      = some (Except.ok 0) ∧
    lookupReq (tickV1 (fun _ _ => Except.ok 0)
        ⟨[ReqFile.valid ⟨"r1", "sendMessage", 0⟩], fun _ => none⟩).1 "r1"
      = some (ReqFile.valid ⟨"r1", "sendMessage", 0⟩) ∧
    ((proxyCollect ⟨[ReqFile.valid ⟨"r1", "sendMessage", 0⟩],
        fun x => if x = "r1" then some (Except.ok 0) else none⟩ "r1").map
      (fun p => (p.1, lookupReq p.2 "r1")))
      = some (SendOutcome.ok 0, none) := by
  refine ⟨rfl, rfl, rfl⟩

/-- C2 (amended): the primary's normal processor never deletes request
files — every tick, in every bridge variant, leaves the requests directory
unchanged; request files are deleted only by the proxy (on collecting a
response, or best-effort on timeout) or by the variant-3 primary's startup
reconciliation, which removes exactly the parseable leftover requests. -/
theorem claim_c2_amended (c : Client) (m : Mailbox) (id : String) :
    (tickV1 c m).1.requests = m.requests ∧
    (tickV2 c m).1.requests = m.requests ∧
    (tickV3 c m).1.requests = m.requests ∧
    lookupReq (timeoutCleanup m id) id = none ∧
    ((proxyCollect m id).map (fun p => lookupReq p.2 id))
      = (m.responses id).map (fun _ => none) ∧
    (reconcileV3 m).requests = m.requests.filter (fun f => !ReqFile.isValid f) := by
  refine ⟨rfl, rfl, rfl, lookupReq_removeReq m id, ?_,
    reconcileGo_requests m.requests m.responses⟩
  cases hm : m.responses id with
  | none => simp [proxyCollect, hm]
  | some content =>
    cases content with
    | ok w =>
      simp only [proxyCollect, hm, Option.map_some]
      exact congrArg some (lookupReq_removeReq m id)
    | error e =>
      simp only [proxyCollect, hm, Option.map_some]
      exact congrArg some (lookupReq_removeReq m id)

/-- C3 (confirmed): as long as a request file is present (and the primary
never removes it — see C2), every 500 ms tick dispatches it again: its id
is in the dispatch trace of the first tick, still in the trace of the
second tick run on the first tick's output, the file is still listed, and
the second tick's freshly computed response overwrites the response file.
Dispatch is at-least-once per tick, not exactly-once (shown for the
variant-1 tick and, last conjunct, the variant-3 tick). -/
theorem claim_c3_at_least_once (c : Client) (m : Mailbox) (r : RequestRecord)
    (hval : ∀ f ∈ m.requests, ReqFile.isValid f = true)
    (hnd : (m.requests.map ReqFile.fileId).Nodup)
    (hmem : ReqFile.valid r ∈ m.requests) :
    r.id ∈ (tickV1 c m).2 ∧
    r.id ∈ (tickV1 c (tickV1 c m).1).2 ∧
    ReqFile.valid r ∈ (tickV1 c (tickV1 c m).1).1.requests ∧
    (tickV1 c (tickV1 c m).1).1.responses r.id = some (dispatch opsV1 c r) ∧
    r.id ∈ (tickV3 c m).2 :=
  ⟨tickGo_trace_of_mem _ _ _ _ _ _ _ hval hmem,
   tickGo_trace_of_mem _ _ _ _ _ _ _ hval hmem,
   hmem,
   tickGo_resp_of_mem _ _ _ _ _ _ _ hval hnd hmem,
   tickGo_trace_of_mem _ _ _ _ _ _ _ hval hmem⟩

/-- Witness for C3 at a concrete one-request mailbox: the `sendMessage`
request `r1` is dispatched on both of two consecutive ticks. -/
theorem claim_c3_witness :
    "r1" ∈ (tickV1 (fun _ _ => Except.ok 0)
        ⟨[ReqFile.valid ⟨"r1", "sendMessage", 5⟩], fun _ => none⟩).2 ∧
    "r1" ∈ (tickV1 (fun _ _ => Except.ok 0)
        (tickV1 (fun _ _ => Except.ok 0)
          ⟨[ReqFile.valid ⟨"r1", "sendMessage", 5⟩], fun _ => none⟩).1).2 ∧
    ReqFile.valid ⟨"r1", "sendMessage", 5⟩ ∈
      (tickV1 (fun _ _ => Except.ok 0)
        (tickV1 (fun _ _ => Except.ok 0)
          ⟨[ReqFile.valid ⟨"r1", "sendMessage", 5⟩], fun _ => none⟩).1).1.requests ∧
    (tickV1 (fun _ _ => Except.ok 0)
        (tickV1 (fun _ _ => Except.ok 0)
          ⟨[ReqFile.valid ⟨"r1", "sendMessage", 5⟩], fun _ => none⟩).1).1.responses "r1"
      = some (dispatch opsV1 (fun _ _ => Except.ok 0) ⟨"r1", "sendMessage", 5⟩) ∧
    "r1" ∈ (tickV3 (fun _ _ => Except.ok 0)
        ⟨[ReqFile.valid ⟨"r1", "sendMessage", 5⟩], fun _ => none⟩).2 :=
  claim_c3_at_least_once (fun _ _ => Except.ok 0)
    ⟨[ReqFile.valid ⟨"r1", "sendMessage", 5⟩], fun _ => none⟩
    ⟨"r1", "sendMessage", 5⟩ (by decide) (by decide) (by decide)

/-- C4 (confirmed): `call` waits up to the operation-specific timeout —
60000 ms for `getMediaFromContact`, 30000 ms for every other operation —
and when no response file appears at any poll before the deadline it
throws the timeout error naming the possibly-missing primary, after
best-effort-deleting the request file; that cleanup never finds the file
afterwards and is idempotent (re-running it changes nothing, whether or
not the file was already removed concurrently). -/
theorem claim_c4_timeout (operation : String) (env : Nat → Option RespContent)
    (m : Mailbox) (id : String)
    (hnone : ∀ k, k < pollsFor (timeoutFor operation) → env k = none) :
    sendRequestWait env operation = SendOutcome.timeout timeoutErrorMsg ∧
    timeoutErrorMsg = "Request timeout - primary instance may not be running" ∧
    timeoutFor "getMediaFromContact" = 60000 ∧
    (operation ≠ "getMediaFromContact" → timeoutFor operation = 30000) ∧
    lookupReq (timeoutCleanup m id) id = none ∧
    timeoutCleanup (timeoutCleanup m id) id = timeoutCleanup m id := by
  refine ⟨?_, rfl, rfl, ?_, lookupReq_removeReq m id, removeReq_idem m id⟩
  · unfold sendRequestWait
    rw [pollFind_none env 0 _ (fun j hj => hnone j (by omega))]
  · intro h
    simp [timeoutFor, h]

/-- Witness for C4: a `getChats` call whose response never appears times
out with the primary-may-not-be-running message, and the request-file
cleanup is idempotent. -/
theorem claim_c4_witness :
    sendRequestWait (fun _ => none) "getChats" = SendOutcome.timeout timeoutErrorMsg ∧
    timeoutErrorMsg = "Request timeout - primary instance may not be running" ∧
    timeoutFor "getMediaFromContact" = 60000 ∧
    ("getChats" ≠ "getMediaFromContact" → timeoutFor "getChats" = 30000) ∧
    lookupReq (timeoutCleanup
      ⟨[ReqFile.valid ⟨"r1", "getChats", 0⟩], fun _ => none⟩ "r1") "r1" = none ∧
    timeoutCleanup (timeoutCleanup
        ⟨[ReqFile.valid ⟨"r1", "getChats", 0⟩], fun _ => none⟩ "r1") "r1"
      = timeoutCleanup
        ⟨[ReqFile.valid ⟨"r1", "getChats", 0⟩], fun _ => none⟩ "r1" :=
  claim_c4_timeout "getChats" (fun _ => none)
    ⟨[ReqFile.valid ⟨"r1", "getChats", 0⟩], fun _ => none⟩ "r1"
    (fun _ _ => rfl)

/-- C5 (confirmed): when the primary's dispatch of a pending request
raises with some message, the tick writes an `error` response carrying
exactly that message; a `call` that observes it throws `RemoteError` with
the message verbatim, and the collection deletes both the request and the
response file, so no Request Record for that id remains in the mailbox. -/
theorem claim_c5_remote_error (c : Client) (m : Mailbox) (r : RequestRecord)
    (msg : String)
    (hval : ∀ f ∈ m.requests, ReqFile.isValid f = true)
    (hnd : (m.requests.map ReqFile.fileId).Nodup)
    (hmem : ReqFile.valid r ∈ m.requests)
    (hdisp : dispatch opsV23 c r = Except.error msg) :
    (tickV3 c m).1.responses r.id = some (Except.error msg) ∧
    sendRequestWait (fun _ => (tickV3 c m).1.responses r.id) r.operation
      = SendOutcome.remoteError msg ∧
    ((proxyCollect (tickV3 c m).1 r.id).map
       (fun p => (p.1, lookupReq p.2 r.id, p.2.responses r.id)))
      = some (SendOutcome.remoteError msg, none, none) := by
  have h1 : (tickV3 c m).1.responses r.id = some (Except.error msg) := by
    have h := tickGo_resp_of_mem opsV23 false c m.requests m.responses [] r
      hval hnd hmem
    rw [hdisp] at h
    exact h
  refine ⟨h1, ?_, ?_⟩
  · unfold sendRequestWait
    simp only [h1]
    rw [pollFind_const _ 0 _ (pollsFor_timeoutFor_pos r.operation)]
  · have hl := lookupReq_removeReq (tickV3 c m).1 r.id
    have hd : deleteResp (tickV3 c m).1.responses r.id r.id = none := by
      simp [deleteResp]
    simp only [proxyCollect, h1, Option.map_some]
    exact congrArg some (Prod.ext rfl (Prod.ext hl hd))

/-- Witness for C5: a client whose `sendMessage` raises `boom`; the proxy
gets `RemoteError boom` and the mailbox is left without the request. -/
theorem claim_c5_witness :
    (tickV3 (fun _ _ => Except.error "boom")
        ⟨[ReqFile.valid ⟨"r1", "sendMessage", 0⟩], fun _ => none⟩).1.responses "r1"
      = some (Except.error "boom") ∧
    sendRequestWait
        (fun _ => (tickV3 (fun _ _ => Except.error "boom")
          ⟨[ReqFile.valid ⟨"r1", "sendMessage", 0⟩], fun _ => none⟩).1.responses "r1")
        "sendMessage"
      = SendOutcome.remoteError "boom" ∧
    ((proxyCollect (tickV3 (fun _ _ => Except.error "boom")
        ⟨[ReqFile.valid ⟨"r1", "sendMessage", 0⟩], fun _ => none⟩).1 "r1").map
      (fun p => (p.1, lookupReq p.2 "r1", p.2.responses "r1")))
      = some (SendOutcome.remoteError "boom", none, none) :=
  claim_c5_remote_error (fun _ _ => Except.error "boom")
    ⟨[ReqFile.valid ⟨"r1", "sendMessage", 0⟩], fun _ => none⟩
    ⟨"r1", "sendMessage", 0⟩ "boom" (by decide) (by decide) (by decide) rfl

/-- C6 (confirmed, for the variant-3 bridge, the one implementing
reconciliation): on processor startup, before the first 500 ms tick,
`processExistingRequests` answers every pre-existing parseable Request
Record with an `error` response saying the server was restarted and
deletes the request file, in one pass — afterwards the requests directory
is empty and the first normal tick has nothing to dispatch. -/
theorem claim_c6_reconciliation (m : Mailbox) (c : Client)
    (hval : ∀ f ∈ m.requests, ReqFile.isValid f = true) :
    (startStateV3 m).requests = [] ∧
    (∀ r : RequestRecord, ReqFile.valid r ∈ m.requests →
      (startStateV3 m).responses r.id = some (Except.error restartErrorMsg)) ∧
    restartErrorMsg = "Server was restarted while processing request" ∧
    (tickV3 c (startStateV3 m)).2 = [] := by
  have hreq : (startStateV3 m).requests = [] := by
    show (reconcileGo m.requests m.responses).1 = []
    rw [reconcileGo_requests]
    refine List.filter_eq_nil_iff.mpr ?_
    intro f hf
    simp [hval f hf]
  refine ⟨hreq, ?_, rfl, ?_⟩
  · intro r hr
    have hmemid : r.id ∈ validIds m.requests :=
      List.mem_filterMap.mpr ⟨ReqFile.valid r, hr, rfl⟩
    show (reconcileGo m.requests m.responses).2 r.id = _
    rw [reconcileGo_resp, if_pos hmemid]
  · show (tickGo opsV23 false c (startStateV3 m).requests _ []).2 = []
    rw [hreq]
    rfl

/-- Witness for C6: one leftover `getChats` request; after reconciliation
the directory is empty, the request has its restart-error response, and
the first tick dispatches nothing. -/
theorem claim_c6_witness :
    (startStateV3 ⟨[ReqFile.valid ⟨"r1", "getChats", 0⟩], fun _ => none⟩).requests = [] ∧
    (∀ r : RequestRecord,
      ReqFile.valid r ∈ [ReqFile.valid (⟨"r1", "getChats", 0⟩ : RequestRecord)] →
      (startStateV3 ⟨[ReqFile.valid ⟨"r1", "getChats", 0⟩], fun _ => none⟩).responses r.id
        = some (Except.error restartErrorMsg)) ∧
    restartErrorMsg = "Server was restarted while processing request" ∧
    (tickV3 (fun _ _ => Except.ok 0)
      (startStateV3 ⟨[ReqFile.valid ⟨"r1", "getChats", 0⟩], fun _ => none⟩)).2 = [] :=
  claim_c6_reconciliation ⟨[ReqFile.valid ⟨"r1", "getChats", 0⟩], fun _ => none⟩
    (fun _ _ => Except.ok 0) (by decide)

/-- C8 (confirmed): within a tick, dispatch outcomes are written per
request — an exception becomes that request's `error` response and has no
effect on the others: for every pending parseable request, in every bridge
variant, the tick writes exactly that request's own dispatch outcome,
whatever the client did on the other requests in the listing. -/
theorem claim_c8_fault_isolation (c : Client) (m : Mailbox) (r : RequestRecord)
    (hval : ∀ f ∈ m.requests, ReqFile.isValid f = true)
    (hnd : (m.requests.map ReqFile.fileId).Nodup)
    (hmem : ReqFile.valid r ∈ m.requests) :
    (tickV1 c m).1.responses r.id = some (dispatch opsV1 c r) ∧
    (tickV2 c m).1.responses r.id = some (dispatch opsV23 c r) ∧
    (tickV3 c m).1.responses r.id = some (dispatch opsV23 c r) :=
  ⟨tickGo_resp_of_mem _ _ _ _ _ _ _ hval hnd hmem,
   tickGo_resp_of_mem _ _ _ _ _ _ _ hval hnd hmem,
   tickGo_resp_of_mem _ _ _ _ _ _ _ hval hnd hmem⟩

/-- Witness for C8: the first listed request (`sendMessage`) raises
`boom`, yet the second (`getChats`) is still answered with its own result
in the same tick. -/
theorem claim_c8_witness :
    (tickV1 (fun op _ => if op = "sendMessage" then Except.error "boom" else Except.ok 7)
        ⟨[ReqFile.valid ⟨"r1", "sendMessage", 0⟩, ReqFile.valid ⟨"r2", "getChats", 0⟩],
         fun _ => none⟩).1.responses "r2"
      = some (Except.ok 7) ∧
    (tickV1 (fun op _ => if op = "sendMessage" then Except.error "boom" else Except.ok 7)
        ⟨[ReqFile.valid ⟨"r1", "sendMessage", 0⟩, ReqFile.valid ⟨"r2", "getChats", 0⟩],
         fun _ => none⟩).1.responses "r1"
      = some (Except.error "boom") :=
  ⟨(claim_c8_fault_isolation
      (fun op _ => if op = "sendMessage" then Except.error "boom" else Except.ok 7)
      ⟨[ReqFile.valid ⟨"r1", "sendMessage", 0⟩, ReqFile.valid ⟨"r2", "getChats", 0⟩],
       fun _ => none⟩
      ⟨"r2", "getChats", 0⟩ (by decide) (by decide) (by decide)).1,
   (claim_c8_fault_isolation
      (fun op _ => if op = "sendMessage" then Except.error "boom" else Except.ok 7)
      ⟨[ReqFile.valid ⟨"r1", "sendMessage", 0⟩, ReqFile.valid ⟨"r2", "getChats", 0⟩],
       fun _ => none⟩
      ⟨"r1", "sendMessage", 0⟩ (by decide) (by decide) (by decide)).1⟩

/-- C9 (counterexample): the claim says an orphan response file (left by a
proxy that timed out and never collected it) is cleaned up at the next
primary startup.  Concrete refuting state: an orphan response `r9` and no
pending requests; both the startup reconciliation and the first normal
tick leave it in place — reconciliation only scans the requests
directory. -/
theorem claim_c9_counterexample :
    (startStateV3 ⟨[], fun x => if x = "r9" then some (Except.ok 5) else none⟩).responses "r9"
      = some (Except.ok 5) ∧
    (tickV3 (fun _ _ => Except.ok 0)
        (startStateV3 ⟨[], fun x => if x = "r9" then some (Except.ok 5) else none⟩)).1.responses "r9"
      = some (Except.ok 5) :=
  ⟨rfl, rfl⟩

/-- C9 (amended): startup reconciliation touches only the requests
directory; a response file whose id is not among the pending parseable
requests — in particular every orphan response — is left exactly as it
was, so the leak is not cleaned at restarts. -/
theorem claim_c9_amended (m : Mailbox) (x : String)
    (hx : x ∉ validIds m.requests) :
    (startStateV3 m).responses x = m.responses x := by
  have h := reconcileGo_resp m.requests m.responses x
  rw [if_neg hx] at h
  exact h

/-- Witness for C9 (amended): the orphan response `r9` survives startup
reconciliation unchanged. -/
theorem claim_c9_amended_witness :
    (startStateV3 ⟨[], fun x => if x = "r9" then some (Except.ok 5) else none⟩).responses "r9"
      = (fun x => if x = "r9" then some (Except.ok 5) else none) "r9" :=
  claim_c9_amended ⟨[], fun x => if x = "r9" then some (Except.ok 5) else none⟩
    "r9" (by decide)

theorem tickGo_valid_abort_irrel (ops : List String) (c : Client)
    (reqs : List ReqFile) (rs : RespStore) (tr : List String)
    (hval : ∀ f ∈ reqs, ReqFile.isValid f = true) :
    tickGo ops true c reqs rs tr = tickGo ops false c reqs rs tr := by
  induction reqs generalizing rs tr with
  | nil => rfl
  | cons f rest ih =>
    cases f with
    | corrupt n =>
      exact absurd (hval (ReqFile.corrupt n) (List.mem_cons_self _ _))
        (by simp [ReqFile.isValid])
    | valid r =>
      simp only [tickGo]
      exact ih _ _ (fun g hg => hval g (List.mem_cons_of_mem _ hg))

/-- C10 (counterexample): the claim says the duplicated bridge variants are
equivalent for every (operation, params) — same operation set, same
reconciliation, same per-operation post-processing.  Concrete refutations:
a `getTodaysMedia` request is answered with an `Unknown operation` error by
the variant-1 processor but executed by variants 2 and 3; the variant-1
`searchMessages` ignores a `dateFrom` filter that variants 2/3 apply, so
the same chats and parameters yield 1 hit versus 0; and a leftover request
survives a variant-1 processor start but is reconciled away by
variant 3. -/
theorem claim_c10_counterexample :
    (tickV1 (fun _ _ => Except.ok 7)
        ⟨[ReqFile.valid ⟨"t1", "getTodaysMedia", 0⟩], fun _ => none⟩).1.responses "t1"
      = some (Except.error "Unknown operation: getTodaysMedia") ∧
    (tickV2 (fun _ _ => Except.ok 7)
        ⟨[ReqFile.valid ⟨"t1", "getTodaysMedia", 0⟩], fun _ => none⟩).1.responses "t1"
      = some (Except.ok 7) ∧
    (tickV3 (fun _ _ => Except.ok 7)
        ⟨[ReqFile.valid ⟨"t1", "getTodaysMedia", 0⟩], fun _ => none⟩).1.responses "t1"
      = some (Except.ok 7) ∧
    (searchV1 [⟨"c1", some "Chat", [⟨"m1", "hello", "alice", "me", 500, false, "chat"⟩]⟩]
        ⟨none, none, none, some 1000000, none, none⟩).length = 1 ∧
    (searchV23 [⟨"c1", some "Chat", [⟨"m1", "hello", "alice", "me", 500, false, "chat"⟩]⟩]
        ⟨none, none, none, some 1000000, none, none⟩).length = 0 ∧
    (startStateV1 ⟨[ReqFile.valid ⟨"t1", "getTodaysMedia", 0⟩], fun _ => none⟩).requests
      = [ReqFile.valid ⟨"t1", "getTodaysMedia", 0⟩] ∧
    (startStateV3 ⟨[ReqFile.valid ⟨"t1", "getTodaysMedia", 0⟩], fun _ => none⟩).requests
      = [] := by
  refine ⟨rfl, rfl, rfl, ?_, ?_, rfl, rfl⟩ <;> decide

/-- C10 (amended): the variants are not equivalent: variant 1's six
operations are a strict subset of the eight of variants 2/3; on
`getContactActivity` and `getTodaysMedia` variant 1 answers with the
`Unknown operation` error while variants 2/3 execute the operation; and
the case bodies of the operations variant 1 does support are not all
shared either — its `searchMessages` post-processing disagrees with
variants 2/3 on the same chats and parameters (third conjunct;
`getMediaFromContact` differs in the source too, in fetch limit, default
slice and extension inference, not embedded here).  What does hold: on
parseable request files a variant-2 tick and a variant-3 tick are
identical, and variant 1 (like variant 2) starts its processor with no
reconciliation pass at all. -/
theorem claim_c10_amended (c : Client) (r : RequestRecord) (m : Mailbox) :
    ((∀ op ∈ opsV1, op ∈ opsV23) ∧ opsV1 ≠ opsV23) ∧
    (r.operation = "getContactActivity" ∨ r.operation = "getTodaysMedia" →
      dispatch opsV1 c r = Except.error ("Unknown operation: " ++ r.operation) ∧
      dispatch opsV23 c r = c r.operation r.params) ∧
    (searchV1 [⟨"c1", some "Chat", [⟨"m1", "hello", "alice", "me", 500, false, "chat"⟩]⟩]
        ⟨none, none, none, some 1000000, none, none⟩).length
      ≠ (searchV23 [⟨"c1", some "Chat", [⟨"m1", "hello", "alice", "me", 500, false, "chat"⟩]⟩]
        ⟨none, none, none, some 1000000, none, none⟩).length ∧
    ((∀ f ∈ m.requests, ReqFile.isValid f = true) → tickV2 c m = tickV3 c m) ∧
    startStateV1 m = m := by
  refine ⟨⟨by decide, by decide⟩, ?_, by decide, ?_, rfl⟩
  · intro h
    rcases h with h | h <;>
      exact ⟨by simp only [dispatch, h]; rw [if_neg (by decide)],
             by simp only [dispatch, h]; rw [if_pos (by decide)]⟩
  · intro hval
    unfold tickV2 tickV3
    rw [tickGo_valid_abort_irrel opsV23 c m.requests m.responses [] hval]

/-- Witness for the C10 amended theorem at a concrete `getTodaysMedia`
request, client and mailbox. -/
theorem claim_c10_amended_witness :
    ((∀ op ∈ opsV1, op ∈ opsV23) ∧ opsV1 ≠ opsV23) ∧
    (("getTodaysMedia" : String) = "getContactActivity" ∨
        ("getTodaysMedia" : String) = "getTodaysMedia" →
      dispatch opsV1 (fun _ _ => Except.ok 9) ⟨"t2", "getTodaysMedia", 3⟩
          = Except.error ("Unknown operation: " ++ "getTodaysMedia") ∧
      dispatch opsV23 (fun _ _ => Except.ok 9) ⟨"t2", "getTodaysMedia", 3⟩
          = (fun _ _ => Except.ok 9 : Client) "getTodaysMedia" 3) ∧
    (searchV1 [⟨"c1", some "Chat", [⟨"m1", "hello", "alice", "me", 500, false, "chat"⟩]⟩]
        ⟨none, none, none, some 1000000, none, none⟩).length
      ≠ (searchV23 [⟨"c1", some "Chat", [⟨"m1", "hello", "alice", "me", 500, false, "chat"⟩]⟩]
        ⟨none, none, none, some 1000000, none, none⟩).length ∧
    ((∀ f ∈ ([] : List ReqFile), ReqFile.isValid f = true) →
      tickV2 (fun _ _ => Except.ok 9) ⟨[], fun _ => none⟩
        = tickV3 (fun _ _ => Except.ok 9) ⟨[], fun _ => none⟩) ∧
    startStateV1 ⟨[], fun _ => none⟩ = ⟨[], fun _ => none⟩ :=
  claim_c10_amended (fun _ _ => Except.ok 9) ⟨"t2", "getTodaysMedia", 3⟩
    ⟨[], fun _ => none⟩

end WhatsappMcp
